import Mathlib

/-!
Shallow embedding of the order-management and access-control core of the
repository (Go / gin / gorm). Each controller handler is translated into a
pure Lean function over an explicit database state `DBState`; the gin
context inputs (path parameters, bound JSON bodies, the user id injected by
the auth middleware) become explicit arguments, and the HTTP response
becomes an explicit result value. gorm calls are modelled as list
operations on the state:

* `DB.Where(p).First(&x)`  ->  `List.find?` over the relevant table;
* `DB.Create(&x)`          ->  append to the table;
* `DB.Save(&x)`            ->  map that replaces the rows with the same
  primary key by the saved record;
* `DB.Where(p).Delete(&T)` ->  filter that drops the matching rows.

Fallibility of the store is made explicit: each DB statement in a handler
receives a Boolean failure flag. A failing SQL statement has no effect of
its own (statement-level atomicity); a transaction (`DB.Begin` ... `Commit`
/ `Rollback`) is modelled by accumulating the pending updates and applying
them to the committed state only at the commit point, discarding them on
rollback or on commit failure. Statements issued directly on the shared
`services.DB` handle take effect on the committed state immediately - this
distinction is exactly what the atomicity claims are about.

Machine integers (Go `int`) are modelled as `Int`; the SQL `AVG` aggregate
(scanned into a `float64` in the source) is modelled as an exact rational.
-/

namespace Project

/-- Embedding of `models.User` (src/models/user.go). -/
structure User where
  ID : Int
  Username : String
  Password : String
  Role : String
deriving DecidableEq, Repr

/-- Embedding of `models.Product` (src/models/product.go, with the derived
`Rating` field written by `CreateReview` in src/controllers/review.go). -/
structure Product where
  ID : Int
  Name : String
  Description : String
  CategoryID : Int
  Price : Rat
  Manufacturer : String
  Rating : Rat
deriving DecidableEq, Repr

/-- Embedding of `models.Order` (src/models/order.go); the `Products`
association is kept in the separate `orderProducts` table of `DBState`. -/
structure Order where
  ID : Int
  UserID : Int
deriving DecidableEq, Repr

/-- Embedding of `models.OrderProduct` (composite primary key
(OrderID, ProductID)). -/
structure OrderProduct where
  OrderID : Int
  ProductID : Int
  Quantity : Int
deriving DecidableEq, Repr

/-- Embedding of `models.Review`. -/
structure Review where
  ID : Int
  ReviewText : String
  Rating : Int
  UserID : Int
  ProductID : Int
deriving DecidableEq, Repr

/-- Embedding of `models.Claims` (identity payload of a bearer token). -/
structure Claims where
  UserID : Int
  Username : String
  Role : String
  ExpiresAt : Int
deriving DecidableEq, Repr

/-- Modelled from the spec: `models.Credentials` is referenced by
`Login`/`Register` but its declaration is not under src/; per the swagger
comment on `Register` it carries username, password and an optional role
supplied by the client. -/
structure Credentials where
  Username : String
  Password : String
  Role : String
deriving DecidableEq, Repr

/-- The committed relational state: the six tables of the store that the
embedded handlers touch. -/
structure DBState where
  users : List User
  products : List Product
  orders : List Order
  orderProducts : List OrderProduct
  reviews : List Review
deriving DecidableEq, Repr

/-- An HTTP-level handler outcome: `ok` is the success JSON message,
`err code msg` is the response written by `utils.HandleError` with the
given status code. -/
inductive HResult where
  | ok (msg : String)
  | err (code : Int) (msg : String)
deriving DecidableEq, Repr

/-- Whether a handler outcome is a success response. -/
def HResult.isOk : HResult → Bool
  | .ok _ => true
  | .err _ _ => false

/-- Embedding of `GetOrderByID` (src/unnamed/part_005, lines 291-318):
loads the order with `WHERE id = ? AND user_id = ?`; a missing row - the
order does not exist, or exists but belongs to another user - is reported
as 404 "Order not found". The success payload is the order row together
with its preloaded line items. -/
def GetOrderByID (st : DBState) (userID orderID : Int) :
    Option (Order × List OrderProduct) × HResult :=
  match st.orders.find? (fun o => o.ID == orderID && o.UserID == userID) with
  | none => (none, .err 404 "Order not found")
  | some order =>
      (some (order, st.orderProducts.filter (fun op => op.OrderID == order.ID)),
       .ok "order")

/-- Embedding of `Register` (src/unnamed/part_005, lines 70-111). The
password hash is supplied by the external hashing collaborator, so the
digest is an explicit argument `hashed` with a failure flag `failHash`;
`newID` is the id the store assigns to the inserted row. The source is
missing a `return` after the duplicate-username conflict and after a hash
failure, so in those cases the error response is written first but the
handler still falls through to `DB.Create`; the modelled response is the
first response written, and the state reflects that the insert still
happens. The inserted role is the literal "user" - the client-supplied
`creds.Role` is never read. -/
def Register (st : DBState) (creds : Credentials) (hashed : String)
    (newID : Int) (failHash failCreate : Bool) : DBState × HResult :=
  if creds.Username.length < 2 then
    (st, .err 400 "Username length is less than 2")
  else if creds.Password.length < 6 then
    (st, .err 400 "Password length is less than 6")
  else
    let dup := (st.users.find? (fun u => u.Username == creds.Username)).isSome
    let newUser : User :=
      { ID := newID, Username := creds.Username
        Password := if failHash then "" else hashed, Role := "user" }
    if failCreate then
      (st,
       if dup then .err 409 "user already exists"
       else if failHash then .err 500 "failed to register user"
       else .err 500 "failed to register user")
    else
      ({ st with users := st.users ++ [newUser] },
       if dup then .err 409 "user already exists"
       else if failHash then .err 500 "failed to register user"
       else .ok "user registered successfully")

/-- Embedding of `UpdateUserRole` (src/controllers/user.go, lines 182-225):
only the transition from stored role "user" to requested role "admin" is
accepted; the two guard failures are the 400 responses the source writes,
which stand for the `InvalidState` error kind of the spec. -/
def UpdateUserRole (st : DBState) (targetID : Int) (reqRole : String)
    (failSave : Bool) : DBState × HResult :=
  match st.users.find? (fun u => u.ID == targetID) with
  | none => (st, .err 404 "User not found")
  | some user =>
      if user.Role != "user" then
        (st, .err 400 "Role can only be updated from \x27user\x27 to \x27admin\x27")
      else if reqRole != "admin" then
        (st, .err 400 "Role can only be updated to \x27admin\x27")
      else if failSave then
        (st, .err 500 "Error updating user role")
      else
        ({ st with users := st.users.map (fun u =>
            if u.ID == user.ID then { user with Role := "admin" } else u) },
         .ok "User role updated to admin successfully")

/-- Blank the password of a user record before returning it, as
`GetAllUsers`/`GetUserByID` do (src/controllers/user.go, lines 388-390 and
line 424). -/
def scrubUser (u : User) : User := { u with Password := "" }

/-- Embedding of `GetAllUsers` (src/controllers/user.go, lines 379-393):
fetches every user and blanks each password before responding. -/
def GetAllUsers (st : DBState) (failFind : Bool) :
    Option (List User) × HResult :=
  if failFind then (none, .err 500 "Error retrieving users")
  else (some (st.users.map scrubUser), .ok "users")

/-- Embedding of `GetUserByID` (src/controllers/user.go, lines 409-427):
fetches one user by id and blanks the password before responding. -/
def GetUserByID (st : DBState) (userID : Int) : Option User × HResult :=
  match st.users.find? (fun u => u.ID == userID) with
  | none => (none, .err 404 "User not found")
  | some user => (some (scrubUser user), .ok "user")

/-- A bearer token as the jwt library sees it: `wellFormed` covers
well-formed-and-correctly-signed (the opaque part verified by the external
library), `claims` the embedded payload. -/
structure Token where
  wellFormed : Bool
  claims : Claims
deriving DecidableEq, Repr

/-- Model of `jwt.ParseWithClaims` against `services.JwtKey`, per the
documented contract of the external token library (spec section 4.1 / 6):
parsing fails on malformed input, on a signature mismatch (both folded
into `wellFormed = false`) and on an expired token; otherwise it yields
the claims. Expiry follows the library: `verifyExp` accepts `now ≤ exp`,
so a token is expired exactly when its expiry lies strictly in the past. -/
def parseWithClaims (now : Int) (t : Token) : Option Claims :=
  if t.wellFormed && decide (now ≤ t.claims.ExpiresAt) then some t.claims
  else none

/-- Embedding of `GenerateToken` (src/Dockerfile, lines 27-39, package
services): the issued claims carry the given identity and role with the
expiry fixed at now + 600 seconds (`time.Now().Add(10 * time.Minute)`).
The HS256 signing against `JwtKey` is the external jwt library; the token
is modelled by the claims payload it carries, and a signing failure is
surfaced through the `failGen` flag of the caller. -/
def GenerateToken (user_id : Int) (username role : String) (now : Int) :
    Claims :=
  { UserID := user_id, Username := username, Role := role
    ExpiresAt := now + 600 }

/-- Embedding of `Refresh` (src/unnamed/part_005, lines 125-155): parse
the presented token (failure: 401 "unauthorized", exactly as the initial
verification in the auth middleware reports an invalid or expired token);
if the token expires more than 120 seconds from now, answer 400 "token not
expired enough" and issue nothing; otherwise issue a fresh token with the
same identity and role via `GenerateToken` (`failGen` is its signing step
failing). -/
def Refresh (now : Int) (t : Token) (failGen : Bool) :
    Option Claims × HResult :=
  match parseWithClaims now t with
  | none => (none, .err 401 "unauthorized")
  | some claims =>
      if claims.ExpiresAt - now > 120 then
        (none, .err 400 "token not expired enough")
      else if failGen then
        (none, .err 500 "token not create token")
      else
        (some (GenerateToken claims.UserID claims.Username claims.Role now),
         .ok "token")

/-- Embedding of `AddProductToOrder` (src/unnamed/part_005, lines
335-393): confirms the order exists and belongs to the caller (404
otherwise); if a line item for (order, product) exists its quantity is
incremented by the requested amount via `DB.Save`, otherwise a new line
item is inserted with the requested quantity. The source performs no
validation of the requested quantity. Both writes go directly through the
shared `services.DB` handle. -/
def AddProductToOrder (st : DBState) (userID orderID productID qty : Int)
    (failSave failCreate : Bool) : DBState × HResult :=
  match st.orders.find? (fun o => o.ID == orderID && o.UserID == userID) with
  | none => (st, .err 404 "Order not found")
  | some order =>
      match st.orderProducts.find?
          (fun op => op.OrderID == order.ID && op.ProductID == productID) with
      | some op =>
          if failSave then (st, .err 500 "Error updating product quantity")
          else
            ({ st with orderProducts := st.orderProducts.map (fun x =>
                if x.OrderID == op.OrderID && x.ProductID == op.ProductID then
                  { op with Quantity := op.Quantity + qty }
                else x) },
             .ok "Product quantity updated")
      | none =>
          if failCreate then (st, .err 500 "Error adding product to order")
          else
            ({ st with orderProducts := st.orderProducts ++
                [{ OrderID := order.ID, ProductID := productID, Quantity := qty }] },
             .ok "Product added to order")

/-- Embedding of `DeleteOrder` (src/unnamed/part_005, lines 540-577):
verifies ownership, then deletes the line items and the order row through
two plain statements on the shared `services.DB` handle - the source never
opens a transaction here, so the line-item deletion is durable on its own
even when the subsequent order-row deletion fails. -/
def DeleteOrder (st : DBState) (userID orderID : Int)
    (failDeleteItems failDeleteOrder : Bool) : DBState × HResult :=
  match st.orders.find? (fun o => o.ID == orderID && o.UserID == userID) with
  | none => (st, .err 404 "Order not found")
  | some order =>
      if failDeleteItems then (st, .err 500 "Error deleting order products")
      else
        let st1 := { st with orderProducts :=
          st.orderProducts.filter (fun op => !(op.OrderID == order.ID)) }
        if failDeleteOrder then (st1, .err 500 "Error deleting order")
        else
          ({ st1 with orders := st1.orders.filter (fun o => !(o.ID == order.ID)) },
           .ok "Order deleted successfully")

/-- Embedding of `DeleteOrderAdmin` (src/controllers/ordersAdmin.go, lines
94-138): looks the order up by id only, then opens a transaction and
deletes the line items on `tx` - but deletes the order row on the shared
`services.DB` handle, outside the transaction. The pending line-item
deletion is applied only at `tx.Commit()`; the order-row deletion takes
effect immediately, so a commit failure leaves the order row deleted while
the line items survive. -/
def DeleteOrderAdmin (st : DBState) (orderID : Int)
    (failBegin failTxDeleteItems failDbDeleteOrder failCommit : Bool) :
    DBState × HResult :=
  match st.orders.find? (fun o => o.ID == orderID) with
  | none => (st, .err 404 "Order not found")
  | some order =>
      if failBegin then (st, .err 500 "Error starting transaction")
      else if failTxDeleteItems then
        (st, .err 500 "Error deleting order products")
      else if failDbDeleteOrder then
        (st, .err 500 "Error deleting order")
      else
        let st1 := { st with orders := st.orders.filter (fun o => !(o.ID == order.ID)) }
        if failCommit then (st1, .err 500 "Error committing transaction")
        else
          ({ st1 with orderProducts :=
             st1.orderProducts.filter (fun op => !(op.OrderID == order.ID)) },
           .ok "Order deleted successfully")

/-- The SQL `AVG(rating)` aggregate over the reviews of one product, as an
exact rational: the arithmetic mean of the ratings. -/
def avgOfReviews (rl : List Review) (productID : Int) : Rat :=
  let ratings := (rl.filter (fun r => r.ProductID == productID)).map
    (fun r => (r.Rating : Rat))
  ratings.sum / (ratings.length : Rat)

/-- Embedding of `CreateReview` (src/controllers/review.go, lines 29-113):
after the product-existence, rating-range and duplicate-review guards, a
transaction inserts the review, recomputes `AVG(rating)` over the reviews
of the product as seen inside the transaction (so including the pending
insert), and saves the product with the new mean; the pending insert and
the product update become visible only at the commit. A failed save rolls
the transaction back (the source then still falls through to `Commit`,
which fails on the finished transaction; the modelled response is the
first error written). `newID` is the id the store assigns to the review. -/
def CreateReview (st : DBState) (userID productID : Int) (text : String)
    (rating : Int) (newID : Int)
    (failBegin failCreate failAvg failSave failCommit : Bool) :
    DBState × HResult :=
  match st.products.find? (fun p => p.ID == productID) with
  | none => (st, .err 400 ("Product with ID " ++ toString productID ++ " not found"))
  | some product =>
      if rating > 5 || rating < 1 then (st, .err 400 "Invalid rating")
      else
        match st.reviews.find?
            (fun r => r.ProductID == productID && r.UserID == userID) with
        | some _ => (st, .err 400 "You already have review")
        | none =>
            if failBegin then (st, .err 500 "Error starting transaction")
            else if failCreate then (st, .err 500 "Error creating review")
            else
              let review : Review :=
                { ID := newID, ReviewText := text, Rating := rating
                  UserID := userID, ProductID := productID }
              let txReviews := st.reviews ++ [review]
              if failAvg then (st, .err 500 "Error getting new rating")
              else
                let newRating := avgOfReviews txReviews productID
                if failSave then (st, .err 500 "Error updating rating")
                else if failCommit then
                  (st, .err 500 "Error committing transaction")
                else
                  ({ st with
                     reviews := txReviews
                     products := st.products.map (fun p =>
                       if p.ID == product.ID then { product with Rating := newRating }
                       else p) },
                   .ok ("Review created successfully. Review ID: " ++ toString newID))

/-- Two user records agree on everything a response may reveal: id,
username and role (only the stored password hash may differ). -/
def samePub (a b : User) : Bool :=
  a.ID == b.ID && a.Username == b.Username && a.Role == b.Role

/-- Two user tables agree pointwise on all public fields. -/
def samePublicUsers : List User → List User → Bool
  | [], [] => true
  | a :: as, b :: bs => samePub a b && samePublicUsers as bs
  | _, _ => false

theorem scrubUser_eq_of_samePub {a b : User} (h : samePub a b = true) :
    scrubUser a = scrubUser b := by
  cases a; cases b
  simp only [samePub, Bool.and_eq_true, beq_iff_eq] at h
  simp [scrubUser, h.1.1, h.1.2, h.2]

theorem map_scrubUser_eq : ∀ (l₁ l₂ : List User),
    samePublicUsers l₁ l₂ = true → l₁.map scrubUser = l₂.map scrubUser
  | [], [], _ => rfl
  | [], _ :: _, h => by simp [samePublicUsers] at h
  | _ :: _, [], h => by simp [samePublicUsers] at h
  | a :: as, b :: bs, h => by
      simp only [samePublicUsers, Bool.and_eq_true] at h
      simp [scrubUser_eq_of_samePub h.1, map_scrubUser_eq as bs h.2]

theorem find?_scrubUser_eq (uid : Int) : ∀ (l₁ l₂ : List User),
    samePublicUsers l₁ l₂ = true →
    Option.map scrubUser (l₁.find? (fun u => u.ID == uid)) =
      Option.map scrubUser (l₂.find? (fun u => u.ID == uid))
  | [], [], _ => rfl
  | [], _ :: _, h => by simp [samePublicUsers] at h
  | _ :: _, [], h => by simp [samePublicUsers] at h
  | a :: as, b :: bs, h => by
      simp only [samePublicUsers, Bool.and_eq_true] at h
      have hid : a.ID = b.ID := by
        have := h.1
        simp only [samePub, Bool.and_eq_true, beq_iff_eq] at this
        exact this.1.1
      by_cases hcase : (a.ID == uid) = true
      · simp only [List.find?, hcase, hid ▸ hcase, Option.map]
        exact congrArg some (scrubUser_eq_of_samePub h.1)
      · have hb : (b.ID == uid) = false := by
          rw [← hid]; exact Bool.of_not_eq_true hcase
        simp only [List.find?, Bool.of_not_eq_true hcase, hb]
        exact find?_scrubUser_eq uid as bs h.2

/-- C10: `GetAllUsers` and `GetUserByID` never reveal stored password
hashes: every user record in their responses has an empty password field,
and for any two stored states whose user tables agree on all fields except
the password hashes, both responses are identical. -/
theorem GetUsers_hide_passwords (st₁ st₂ : DBState) (uid : Int) (ff : Bool) :
    (∀ us, (GetAllUsers st₁ ff).1 = some us → ∀ u ∈ us, u.Password = "")
    ∧ (∀ u, (GetUserByID st₁ uid).1 = some u → u.Password = "")
    ∧ (samePublicUsers st₁.users st₂.users = true →
        GetAllUsers st₁ ff = GetAllUsers st₂ ff ∧
        GetUserByID st₁ uid = GetUserByID st₂ uid) := by
  refine ⟨?_, ?_, ?_⟩
  · intro us hus u hu
    cases ff with
    | true => simp [GetAllUsers] at hus
    | false =>
        simp only [GetAllUsers, Bool.false_eq_true, if_false, Option.some.injEq] at hus
        subst hus
        rcases List.mem_map.mp hu with ⟨y, _, rfl⟩
        rfl
  · intro u hu
    unfold GetUserByID at hu
    cases hf : st₁.users.find? (fun u => u.ID == uid) with
    | none => rw [hf] at hu; simp at hu
    | some y =>
        rw [hf] at hu
        simp only [Option.some.injEq] at hu
        subst hu; rfl
  · intro hsame
    constructor
    · simp only [GetAllUsers, map_scrubUser_eq st₁.users st₂.users hsame]
    · have h := find?_scrubUser_eq uid st₁.users st₂.users hsame
      unfold GetUserByID
      cases h1 : st₁.users.find? (fun u => u.ID == uid) with
      | none =>
          cases h2 : st₂.users.find? (fun u => u.ID == uid) with
          | none => rfl
          | some y => rw [h1, h2] at h; simp at h
      | some y =>
          cases h2 : st₂.users.find? (fun u => u.ID == uid) with
          | none => rw [h1, h2] at h; simp at h
          | some z =>
              rw [h1, h2] at h
              simp only [Option.map, Option.some.injEq] at h
              simp [h]

/-- C10 witness: two concrete stores that differ only in the stored
password hashes produce identical responses from both endpoints. -/
theorem GetUsers_hide_passwords_witness :
    GetAllUsers ⟨[⟨1, "ann", "hashA", "user"⟩], [], [], [], []⟩ false =
      GetAllUsers ⟨[⟨1, "ann", "hashB", "user"⟩], [], [], [], []⟩ false
    ∧ GetUserByID ⟨[⟨1, "ann", "hashA", "user"⟩], [], [], [], []⟩ 1 =
      GetUserByID ⟨[⟨1, "ann", "hashB", "user"⟩], [], [], [], []⟩ 1 :=
  (GetUsers_hide_passwords ⟨[⟨1, "ann", "hashA", "user"⟩], [], [], [], []⟩
    ⟨[⟨1, "ann", "hashB", "user"⟩], [], [], [], []⟩ 1 false).2.2
    (by decide)

/-- C7: for an authenticated user, an order id that matches no order owned
by that user - whether the order does not exist at all or belongs to a
different user - is answered with 404 "Order not found"; moreover the only
error `GetOrderByID` ever produces is that 404 (in particular never a 403
Forbidden), so a missing order is indistinguishable from an order owned by
someone else. -/
theorem GetOrderByID_ownership_isolation (st : DBState) (userID orderID : Int) :
    ((∀ o ∈ st.orders, ¬(o.ID = orderID ∧ o.UserID = userID)) →
      GetOrderByID st userID orderID = (none, .err 404 "Order not found"))
    ∧ (∀ c m, (GetOrderByID st userID orderID).2 = .err c m →
        c = 404 ∧ m = "Order not found") := by
  constructor
  · intro h
    unfold GetOrderByID
    cases hf : st.orders.find? (fun o => o.ID == orderID && o.UserID == userID) with
    | none => rfl
    | some o =>
        exfalso
        have hmem := List.mem_of_find?_eq_some hf
        have hp := List.find?_some hf
        simp only [Bool.and_eq_true, beq_iff_eq] at hp
        exact h o hmem ⟨hp.1, hp.2⟩
  · intro c m hcm
    unfold GetOrderByID at hcm
    cases hf : st.orders.find? (fun o => o.ID == orderID && o.UserID == userID) with
    | none =>
        rw [hf] at hcm
        simp only [HResult.err.injEq] at hcm
        exact ⟨hcm.1.symm, hcm.2.symm⟩
    | some o => rw [hf] at hcm; simp at hcm

/-- C7 witness: user 1 asking for order 5, which is owned by user 2, gets
the same 404 "Order not found" as for a non-existent order. -/
theorem GetOrderByID_ownership_isolation_witness :
    GetOrderByID ⟨[], [], [⟨5, 2⟩], [], []⟩ 1 5 = (none, .err 404 "Order not found")
    ∧ GetOrderByID ⟨[], [], [⟨5, 2⟩], [], []⟩ 1 6 = (none, .err 404 "Order not found") :=
  ⟨(GetOrderByID_ownership_isolation ⟨[], [], [⟨5, 2⟩], [], []⟩ 1 5).1 (by decide),
   (GetOrderByID_ownership_isolation ⟨[], [], [⟨5, 2⟩], [], []⟩ 1 6).1 (by decide)⟩

/-- C9: every account `Register` stores carries role "user": any user
present in the table after the call was either already there or has role
"user", whatever role value the client supplied in the credentials. -/
theorem Register_role_always_user (st : DBState) (creds : Credentials)
    (hashed : String) (newID : Int) (failHash failCreate : Bool) :
    ∀ u ∈ (Register st creds hashed newID failHash failCreate).1.users,
      u ∈ st.users ∨ u.Role = "user" := by
  intro u hu
  by_cases h1 : creds.Username.length < 2
  · simp only [Register, if_pos h1] at hu
    exact Or.inl hu
  · by_cases h2 : creds.Password.length < 6
    · simp only [Register, if_neg h1, if_pos h2] at hu
      exact Or.inl hu
    · cases failCreate with
      | true =>
          simp [Register, h1, h2] at hu
          exact Or.inl hu
      | false =>
          simp only [Register, if_neg h1, if_neg h2, Bool.false_eq_true, if_false,
            List.mem_append, List.mem_singleton] at hu
          rcases hu with hu | hu
          · exact Or.inl hu
          · subst hu; exact Or.inr rfl

/-- C9 witness: registering with a client-supplied role "admin" still
stores the account with role "user". -/
theorem Register_role_always_user_witness :
    (⟨2, "bob", "h", "user"⟩ : User) ∈ ([] : List User)
    ∨ (⟨2, "bob", "h", "user"⟩ : User).Role = "user" :=
  Register_role_always_user ⟨[], [], [], [], []⟩ ⟨"bob", "secret7", "admin"⟩
    "h" 2 false false ⟨2, "bob", "h", "user"⟩ (by decide)

/-- C6: `UpdateUserRole` succeeds only when the stored role of the target
is "user" and the requested role is "admin"; for an existing target, every
other combination leaves the store unchanged and answers with one of the
two 400 responses that encode the `InvalidState` error kind. -/
theorem UpdateUserRole_monotonic (st : DBState) (tid : Int) (reqRole : String)
    (fs : Bool) :
    ((UpdateUserRole st tid reqRole fs).2.isOk = true →
      ∃ u, st.users.find? (fun x => x.ID == tid) = some u ∧
        u.Role = "user" ∧ reqRole = "admin")
    ∧ (∀ u, st.users.find? (fun x => x.ID == tid) = some u →
        (u.Role ≠ "user" ∨ reqRole ≠ "admin") →
        (UpdateUserRole st tid reqRole fs).1 = st ∧
          ((UpdateUserRole st tid reqRole fs).2 =
              .err 400 "Role can only be updated from \x27user\x27 to \x27admin\x27" ∨
           (UpdateUserRole st tid reqRole fs).2 =
              .err 400 "Role can only be updated to \x27admin\x27")) := by
  constructor
  · intro hok
    unfold UpdateUserRole at hok
    cases hf : st.users.find? (fun x => x.ID == tid) with
    | none => rw [hf] at hok; simp [HResult.isOk] at hok
    | some u =>
        rw [hf] at hok
        refine ⟨u, rfl, ?_⟩
        by_cases h1 : u.Role = "user"
        · by_cases h2 : reqRole = "admin"
          · exact ⟨h1, h2⟩
          · simp [h1, h2, HResult.isOk] at hok
        · simp [h1, HResult.isOk] at hok
  · intro u hf hbad
    unfold UpdateUserRole
    rw [hf]
    by_cases h1 : u.Role = "user"
    · have h2 : reqRole ≠ "admin" := by
        rcases hbad with h | h
        · exact absurd h1 h
        · exact h
      simp [h1, h2]
    · simp [h1]

/-- C6 witness: an admin target cannot be updated at all - the call leaves
the store unchanged and answers one of the `InvalidState` responses. -/
theorem UpdateUserRole_monotonic_witness :
    (UpdateUserRole ⟨[⟨1, "root", "p", "admin"⟩], [], [], [], []⟩ 1 "admin" false).1 =
      ⟨[⟨1, "root", "p", "admin"⟩], [], [], [], []⟩
    ∧ ((UpdateUserRole ⟨[⟨1, "root", "p", "admin"⟩], [], [], [], []⟩ 1 "admin" false).2 =
          .err 400 "Role can only be updated from \x27user\x27 to \x27admin\x27" ∨
        (UpdateUserRole ⟨[⟨1, "root", "p", "admin"⟩], [], [], [], []⟩ 1 "admin" false).2 =
          .err 400 "Role can only be updated to \x27admin\x27") :=
  (UpdateUserRole_monotonic ⟨[⟨1, "root", "p", "admin"⟩], [], [], [], []⟩ 1 "admin" false).2
    ⟨1, "root", "p", "admin"⟩ rfl (Or.inl (by decide))

/-- C8: `Refresh` rejects an invalid or already-expired token with the 401
"unauthorized" that initial verification also produces, and rejects a
valid token presented more than 120 seconds before its expiry with the 400
"token not expired enough" response; in both cases no new token is issued
(the payload component is `none`). -/
theorem Refresh_eligibility (now : Int) (t : Token) (fg : Bool) :
    ((t.wellFormed = false ∨ t.claims.ExpiresAt < now) →
      Refresh now t fg = (none, .err 401 "unauthorized"))
    ∧ (t.wellFormed = true → now ≤ t.claims.ExpiresAt →
      t.claims.ExpiresAt - now > 120 →
      Refresh now t fg = (none, .err 400 "token not expired enough")) := by
  constructor
  · intro h
    have hp : parseWithClaims now t = none := by
      unfold parseWithClaims
      rcases h with h | h
      · simp [h]
      · simp [not_le_of_gt h]
    unfold Refresh
    rw [hp]
  · intro hwf hle hfar
    have hp : parseWithClaims now t = some t.claims := by
      unfold parseWithClaims
      simp [hwf, hle]
    unfold Refresh
    rw [hp]
    simp [hfar]

/-- C8 witness: at time 1000, an expired token (expiry 900) is refused
with 401, and a token expiring at 1121 (121 seconds away) is refused with
the not-yet-eligible 400; neither call issues a token. -/
theorem Refresh_eligibility_witness :
    Refresh 1000 ⟨true, ⟨1, "u", "user", 900⟩⟩ false =
      (none, .err 401 "unauthorized")
    ∧ Refresh 1000 ⟨true, ⟨1, "u", "user", 1121⟩⟩ false =
      (none, .err 400 "token not expired enough") :=
  ⟨(Refresh_eligibility 1000 ⟨true, ⟨1, "u", "user", 900⟩⟩ false).1
      (Or.inr (by decide)),
   (Refresh_eligibility 1000 ⟨true, ⟨1, "u", "user", 1121⟩⟩ false).2
      rfl (by decide) (by decide)⟩

/-- C1: the deletions are not atomic. For the store holding order 1 (user
1) with one line item, forcing the order-row deletion of `DeleteOrder` to
fail leaves a state where the line items are already durably gone while
the order row survives - the source runs both deletes on the shared
handle with no transaction, so the claimed rollback cannot happen. For
`DeleteOrderAdmin`, which deletes the order row outside the transaction
it opened, a commit failure leaves the order row deleted while the line
items survive. Both are partial effects the claim forbids. -/
theorem DeleteOrder_partial_effect_on_failure :
    DeleteOrder ⟨[], [], [⟨1, 1⟩], [⟨1, 7, 2⟩], []⟩ 1 1 false true =
      (⟨[], [], [⟨1, 1⟩], [], []⟩, .err 500 "Error deleting order")
    ∧ DeleteOrderAdmin ⟨[], [], [⟨1, 1⟩], [⟨1, 7, 2⟩], []⟩ 1 false false false true =
      (⟨[], [], [], [⟨1, 7, 2⟩], []⟩, .err 500 "Error committing transaction") := by
  exact ⟨by decide, by decide⟩

/-- C5: `AddProductToOrder` accepts a non-positive quantity. On a store
holding order 1 (user 1), a request with quantity -3 succeeds and creates
a line item with quantity -3; on a store where the pair already has
quantity 2, the same request succeeds and drives the quantity to -1. The
positivity requirement of the claim is nowhere enforced by the handler. -/
theorem AddProductToOrder_accepts_nonpositive_quantity :
    AddProductToOrder ⟨[], [], [⟨1, 1⟩], [], []⟩ 1 1 7 (-3) false false =
      (⟨[], [], [⟨1, 1⟩], [⟨1, 7, -3⟩], []⟩, .ok "Product added to order")
    ∧ AddProductToOrder ⟨[], [], [⟨1, 1⟩], [⟨1, 7, 2⟩], []⟩ 1 1 7 (-3) false false =
      (⟨[], [], [⟨1, 1⟩], [⟨1, 7, -1⟩], []⟩, .ok "Product quantity updated") := by
  exact ⟨by decide, by decide⟩

/-- C3 counterexample: user 9 already reviewed product 1; a second
`CreateReview` by user 9 for product 1 is rejected with status 400 ("You
already have review"), not with the 409 status that this code base uses
for the `Conflict` error kind (duplicate username in `Register`), so the
claim as stated is false. -/
theorem CreateReview_duplicate_returns_400_not_409 :
    CreateReview ⟨[], [⟨1, "p", "", 1, 10, "m", 4⟩], [], [], [⟨1, "old", 4, 9, 1⟩]⟩
        9 1 "again" 5 2 false false false false false =
      (⟨[], [⟨1, "p", "", 1, 10, "m", 4⟩], [], [], [⟨1, "old", 4, 9, 1⟩]⟩,
       .err 400 "You already have review")
    ∧ (400 : Int) ≠ 409 := by
  exact ⟨by decide, by decide⟩

/-- C3 amended: a second `CreateReview` for a (user, product) pair that
already has a review by that user fails - with the 400 "You already have
review" response rather than the `Conflict` (409) kind - and leaves the
store, hence the review set and the stored rating, unchanged. -/
theorem CreateReview_duplicate_rejected (st : DBState) (uid pid : Int)
    (text : String) (rating newID : Int) (f0 f1 f2 f3 f4 : Bool)
    (hp : (st.products.find? (fun p => p.ID == pid)).isSome)
    (hr : rating ≤ 5 ∧ 1 ≤ rating)
    (hd : (st.reviews.find? (fun r => r.ProductID == pid && r.UserID == uid)).isSome) :
    CreateReview st uid pid text rating newID f0 f1 f2 f3 f4 =
      (st, .err 400 "You already have review") := by
  rcases Option.isSome_iff_exists.mp hp with ⟨product, hfp⟩
  rcases Option.isSome_iff_exists.mp hd with ⟨review, hfd⟩
  have hrange : (rating > 5 || rating < 1) = false := by
    simp only [Bool.or_eq_false_iff, decide_eq_false_iff_not, not_lt]
    exact ⟨hr.1, hr.2⟩
  unfold CreateReview
  rw [hfp, hrange, hfd]
  rfl

/-- C3 amended witness: a concrete second review by user 9 on product 1
is rejected with the 400 response and the store is unchanged. -/
theorem CreateReview_duplicate_rejected_witness :
    CreateReview ⟨[], [⟨1, "q", "", 1, 5, "m", 3⟩], [], [], [⟨1, "old", 3, 9, 1⟩]⟩
        9 1 "second" 4 2 false false false false false =
      (⟨[], [⟨1, "q", "", 1, 5, "m", 3⟩], [], [], [⟨1, "old", 3, 9, 1⟩]⟩,
       .err 400 "You already have review") :=
  CreateReview_duplicate_rejected
    ⟨[], [⟨1, "q", "", 1, 5, "m", 3⟩], [], [], [⟨1, "old", 3, 9, 1⟩]⟩
    9 1 "second" 4 2 false false false false false
    (by decide) (by decide) (by decide)

/-- C4: two sequential `AddProductToOrder` calls for the same
(order, product) pair on an order owned by the caller, starting from a
state with no line item for that pair, leave exactly one line item for
the pair, with quantity q1 + q2: the first call inserts the row, the
second finds it and increments it in place instead of inserting a
duplicate. -/
theorem AddProductToOrder_merges (st : DBState) (uid oid pid q1 q2 : Int)
    (o : Order)
    (ho : st.orders.find? (fun x => x.ID == oid && x.UserID == uid) = some o)
    (hn : ∀ op ∈ st.orderProducts,
      (op.OrderID == oid && op.ProductID == pid) = false) :
    ((AddProductToOrder (AddProductToOrder st uid oid pid q1 false false).1
        uid oid pid q2 false false).1.orderProducts.filter
      (fun op => op.OrderID == oid && op.ProductID == pid)) =
      [⟨oid, pid, q1 + q2⟩] := by
  have hpred := List.find?_some ho
  simp only [Bool.and_eq_true, beq_iff_eq] at hpred
  obtain ⟨hoID, hoUID⟩ := hpred
  subst hoID
  have hfind1 : st.orderProducts.find?
      (fun op => op.OrderID == o.ID && op.ProductID == pid) = none :=
    List.find?_eq_none.mpr (fun x hx => by simp [hn x hx])
  have h1 : AddProductToOrder st uid o.ID pid q1 false false =
      ({ st with orderProducts := st.orderProducts ++ [⟨o.ID, pid, q1⟩] },
       .ok "Product added to order") := by
    simp only [AddProductToOrder, ho, hfind1]
    rfl
  have hfind2 : (st.orderProducts ++ [(⟨o.ID, pid, q1⟩ : OrderProduct)]).find?
      (fun op => op.OrderID == o.ID && op.ProductID == pid) =
      some ⟨o.ID, pid, q1⟩ := by
    rw [List.find?_append, hfind1]
    simp [List.find?]
  have h2 : AddProductToOrder
      ({ st with orderProducts := st.orderProducts ++ [⟨o.ID, pid, q1⟩] })
      uid o.ID pid q2 false false =
      ({ st with orderProducts :=
          (st.orderProducts ++ [(⟨o.ID, pid, q1⟩ : OrderProduct)]).map (fun x =>
            if x.OrderID == o.ID && x.ProductID == pid then ⟨o.ID, pid, q1 + q2⟩
            else x) },
       .ok "Product quantity updated") := by
    simp only [AddProductToOrder, ho, hfind2]
    rfl
  rw [h1]
  simp only []
  rw [h2]
  simp only [List.map_append, List.filter_append]
  have hmapl : st.orderProducts.map (fun x =>
      if x.OrderID == o.ID && x.ProductID == pid then
        (⟨o.ID, pid, q1 + q2⟩ : OrderProduct) else x) = st.orderProducts := by
    have hcongr : ∀ x ∈ st.orderProducts,
        (if x.OrderID == o.ID && x.ProductID == pid then
          (⟨o.ID, pid, q1 + q2⟩ : OrderProduct) else x) = id x :=
      fun x hx => by simp [hn x hx]
    rw [List.map_congr_left hcongr, List.map_id]
  rw [hmapl]
  have hfilterl : st.orderProducts.filter
      (fun op => op.OrderID == o.ID && op.ProductID == pid) = [] :=
    List.filter_eq_nil_iff.mpr (fun x hx => by simp [hn x hx])
  rw [hfilterl]
  simp [List.filter]

/-- C4 witness: adding product 7 to order 1 with quantity 2, then again
with quantity 3, leaves exactly the single line item (1, 7) with quantity
2 + 3. -/
theorem AddProductToOrder_merges_witness :
    ((AddProductToOrder (AddProductToOrder ⟨[], [], [⟨1, 1⟩], [], []⟩ 1 1 7 2 false false).1
        1 1 7 3 false false).1.orderProducts.filter
      (fun op => op.OrderID == 1 && op.ProductID == 7)) = [⟨1, 7, 2 + 3⟩] :=
  AddProductToOrder_merges ⟨[], [], [⟨1, 1⟩], [], []⟩ 1 1 7 2 3 ⟨1, 1⟩ rfl
    (by simp)

/-- C2: whenever `CreateReview` answers with success, every product row
carrying the reviewed id stores exactly the arithmetic mean of the ratings
of all reviews of that product in the resulting state; and the operation
is transactional - if any constituent step (transaction start, review
insert, mean recomputation, product update, commit) fails, the resulting
state is the initial state (in particular the review insert is rolled
back) and an error is reported. -/
theorem CreateReview_mean_and_atomic (st : DBState) (uid pid : Int)
    (text : String) (rating newID : Int) (f0 f1 f2 f3 f4 : Bool)
    (res : DBState × HResult)
    (hres : CreateReview st uid pid text rating newID f0 f1 f2 f3 f4 = res) :
    (res.2.isOk = true → ∀ p ∈ res.1.products, p.ID = pid →
        p.Rating = avgOfReviews res.1.reviews pid)
    ∧ ((f0 || f1 || f2 || f3 || f4) = true →
        res.1 = st ∧ res.2.isOk = false) := by
  have herr : ∀ (c : Int) (m : String), (st, HResult.err c m) = res →
      ((res.2.isOk = true → ∀ p ∈ res.1.products, p.ID = pid →
          p.Rating = avgOfReviews res.1.reviews pid)
       ∧ ((f0 || f1 || f2 || f3 || f4) = true →
          res.1 = st ∧ res.2.isOk = false)) := by
    intro c m h
    rw [← h]
    exact ⟨fun hok => absurd hok (by simp [HResult.isOk]), fun _ => ⟨rfl, rfl⟩⟩
  unfold CreateReview at hres
  cases hfp : st.products.find? (fun p => p.ID == pid) with
  | none =>
      rw [hfp] at hres
      exact herr _ _ hres
  | some product =>
      simp only [hfp] at hres
      by_cases hrange : (decide (rating > 5) || decide (rating < 1)) = true
      · rw [if_pos hrange] at hres
        exact herr _ _ hres
      · rw [if_neg hrange] at hres
        cases hfd : st.reviews.find?
            (fun r => r.ProductID == pid && r.UserID == uid) with
        | some r =>
            simp only [hfd] at hres
            exact herr _ _ hres
        | none =>
            simp only [hfd] at hres
            cases f0 with
            | true => exact herr _ _ hres
            | false =>
            cases f1 with
            | true => exact herr _ _ hres
            | false =>
            cases f2 with
            | true => exact herr _ _ hres
            | false =>
            cases f3 with
            | true => exact herr _ _ hres
            | false =>
            cases f4 with
            | true => exact herr _ _ hres
            | false =>
              have hres2 : (({ st with
                  products := st.products.map (fun p =>
                    if p.ID == product.ID then
                      { product with Rating := avgOfReviews (st.reviews ++ [⟨newID, text, rating, uid, pid⟩]) pid }
                    else p),
                  reviews := st.reviews ++ [⟨newID, text, rating, uid, pid⟩] } : DBState),
                HResult.ok ("Review created successfully. Review ID: " ++
                  toString newID)) = res := hres
              have hpidprod : product.ID = pid := by
                have h := List.find?_some hfp
                simpa using h
              refine ⟨?_, fun hf => absurd hf (by simp)⟩
              intro _ p hmem hpid
              rw [← hres2] at hmem ⊢
              rcases List.mem_map.mp hmem with ⟨y, hy, hyeq⟩
              have hyeq2 : (if (y.ID == product.ID) = true then
                  ({ product with Rating := avgOfReviews (st.reviews ++ [⟨newID, text, rating, uid, pid⟩]) pid } : Product)
                  else y) = p := hyeq
              by_cases hyid : (y.ID == product.ID) = true
              · rw [if_pos hyid] at hyeq2
                rw [← hyeq2]
              · rw [if_neg hyid] at hyeq2
                subst hyeq2
                exact absurd (by rw [beq_iff_eq, hpid]; exact hpidprod.symm) hyid

/-- C2 witness: on a store holding product 1 with no reviews, a
successful review with rating 4 leaves the product storing exactly the
mean of the review set (here 4), and forcing the mean recomputation to
fail rolls the review insert back, leaving the initial store. -/
theorem CreateReview_mean_and_atomic_witness :
    ((⟨1, "p", "", 1, 10, "m",
        avgOfReviews ([] ++ [⟨1, "good", 4, 1, 1⟩]) 1⟩ : Product).Rating =
      avgOfReviews
        ((CreateReview ⟨[], [⟨1, "p", "", 1, 10, "m", 0⟩], [], [], []⟩
          1 1 "good" 4 1 false false false false false).1.reviews) 1)
    ∧ ((CreateReview ⟨[], [⟨1, "p", "", 1, 10, "m", 0⟩], [], [], []⟩
          1 1 "good" 4 1 false false true false false).1 =
        ⟨[], [⟨1, "p", "", 1, 10, "m", 0⟩], [], [], []⟩
      ∧ (CreateReview ⟨[], [⟨1, "p", "", 1, 10, "m", 0⟩], [], [], []⟩
          1 1 "good" 4 1 false false true false false).2.isOk = false)
    ∧ avgOfReviews ([] ++ [⟨1, "good", 4, 1, 1⟩]) 1 = 4 :=
  ⟨(CreateReview_mean_and_atomic ⟨[], [⟨1, "p", "", 1, 10, "m", 0⟩], [], [], []⟩
      1 1 "good" 4 1 false false false false false _ rfl).1 rfl _
      (List.Mem.head _) rfl,
   (CreateReview_mean_and_atomic ⟨[], [⟨1, "p", "", 1, 10, "m", 0⟩], [], [], []⟩
      1 1 "good" 4 1 false false true false false _ rfl).2 rfl,
   by norm_num [avgOfReviews]⟩

end Project
